import Mathlib

set_option linter.unusedVariables false

/-!
Shallow embedding of the squrl monitoring lambdas
(`terraform/modules/monitoring/templates/`): the real-time abuse detector
(`realtime_abuse_detector.py`), the IP reputation checker
(`ip_reputation_checker.py`) and the abuse response handler
(`abuse_response_handler.py`).  Pure Python string/number computations are
translated into executable Lean functions; the DynamoDB table, the WAF and
time are made explicit (records, a `waf_configured` flag and a `ttlv`
timestamp parameter respectively).  Theorems settling the claims follow the
definitions.
-/

namespace Squrl

/- ### Python string primitives

Python string operations are modelled over `String.data` (the list of
characters) so that everything reduces in the kernel.  `py_lower` models
`str.lower` on the ASCII range used by alarm names and user agents. -/

def py_lower (s : String) : String :=
  String.mk (s.data.map Char.toLower)

/-- Python `s.startswith(p)`. -/
def str_starts_with (s p : String) : Bool :=
  p.data.isPrefixOf s.data

/-- Helper for substring containment: does `n` occur inside `h`? -/
def str_contains_aux (n : List Char) : List Char → Bool
  | [] => n.isEmpty
  | c :: t => n.isPrefixOf (c :: t) || str_contains_aux n t

/-- Python `sub in s` (substring containment). -/
def str_contains (s sub : String) : Bool :=
  str_contains_aux sub.data s.data

/-- Python `s.split(".")` restricted to the single-character separator used by
`check_ip_patterns`; keeps empty pieces exactly as Python does. -/
def split_dots : List Char → List (List Char)
  | [] => [[]]
  | c :: rest =>
    let r := split_dots rest
    if c = '.' then [] :: r
    else
      match r with
      | h :: t => (c :: h) :: t
      | [] => [[c]]

/-- Digits of a decimal literal, or `none` when some character is not a digit
or the literal is empty (Python `int` raises there). -/
def dec_digits_to_nat (l : List Char) : Option Nat :=
  if l.isEmpty then none
  else
    l.foldl
      (fun acc c =>
        match acc with
        | none => none
        | some n => if c.isDigit then some (n * 10 + (c.toNat - 48)) else none)
      (some 0)

/-- Python `int(s)` on the string shapes that can reach
`check_ip_patterns` (optional surrounding spaces, optional sign, decimal
digits); parse failure models the `ValueError` that the checker's inner
`except: continue` swallows. -/
def py_int_of_string (s : String) : Option Int :=
  let t := ((s.data.dropWhile (fun c => c == ' ')).reverse.dropWhile
    (fun c => c == ' ')).reverse
  match t with
  | '-' :: rest => (dec_digits_to_nat rest).map (fun n => -(n : Int))
  | '+' :: rest => (dec_digits_to_nat rest).map (fun n => (n : Int))
  | _ => (dec_digits_to_nat t).map (fun n => (n : Int))

/- ### Scoring engine (`realtime_abuse_detector.py`, `calculate_abuse_score`) -/

def suspicious_agents : List String :=
  ["bot", "crawler", "spider", "scraper", "scanner"]

/-- `calculate_abuse_score(source_ip, status, user_agent, method, resource)`
(lines 88-121).  `source_ip` is accepted and ignored exactly as in the
source.  The suspicious-agent loop adds 4 once and breaks on the first
match, which is the same as adding 4 when any keyword occurs. -/
def calculate_abuse_score
    (source_ip status user_agent method resource : String) : Nat :=
  let score := 0
  let score := if str_starts_with status "4" then score + 2 else score
  let score := if status == "404" then score + 3 else score
  let score := if status == "429" then score + 5 else score
  let ua_lower := py_lower user_agent
  let score :=
    if suspicious_agents.any (fun a => str_contains ua_lower a) then score + 4
    else score
  let score :=
    if user_agent.data.isEmpty || user_agent.data.length < 10 then score + 3
    else score
  let score := if method == "POST" && resource == "/create" then score + 1 else score
  let score :=
    if str_starts_with resource "/admin" || str_starts_with resource "/." then score + 5
    else score
  min score 100

/-- The additive rule list as the spec (§4.1) words it, for comparison with
`calculate_abuse_score` in the refinement claim about the scoring rules. -/
def spec_scoring_rule_sum (status user_agent method resource : String) : Nat :=
  (if str_starts_with status "4" then 2 else 0) +
  (if status == "404" then 3 else 0) +
  (if status == "429" then 5 else 0) +
  (if suspicious_agents.any (fun a => str_contains (py_lower user_agent) a) then 4 else 0) +
  (if user_agent.data.isEmpty || user_agent.data.length < 10 then 3 else 0) +
  (if method == "POST" && resource == "/create" then 1 else 0) +
  (if str_starts_with resource "/admin" || str_starts_with resource "/." then 5 else 0)

/-- `get_abuse_score_range(score)` (lines 310-319). -/
def get_abuse_score_range (score : Nat) : String :=
  if score < 10 then "low"
  else if score < 30 then "medium"
  else if score < 60 then "high"
  else "critical"

/- ### Handler field extraction (`realtime_abuse_detector.py`, `handler`)

The handler reads `source_ip` and `status` with `event.get(...)` (no
default) and the remaining fields with default `''`.  A missing or empty
`source_ip` returns a 400-style result before any scoring; a missing
`status` reaches `status.startswith('4')` as `None`, raising
`AttributeError`, which the outer `except` turns into a 500-style result. -/

structure RawEvent where
  source_ip : Option String := none
  status : Option String := none
  user_agent : Option String := none
  method : Option String := none
  resource : Option String := none
deriving DecidableEq

inductive HandlerOutcome where
  | ok : Nat → HandlerOutcome
  | clientError : HandlerOutcome
  | serverError : HandlerOutcome
deriving DecidableEq

/-- The scoring part of `handler` (lines 30-86): which score, if any, the
entry point computes for an inbound event. -/
def handler_score_outcome (e : RawEvent) : HandlerOutcome :=
  match e.source_ip with
  | none => .clientError
  | some ip =>
    if ip.data.isEmpty then .clientError
    else
      match e.status with
      | none => .serverError
      | some st =>
        .ok (calculate_abuse_score ip st (e.user_agent.getD "")
          (e.method.getD "") (e.resource.getD ""))

/- ### Windowed aggregation store (`realtime_abuse_detector.py`,
`update_tracking_data`, lines 123-185)

One `TrackingRecord` models one DynamoDB item for an `(ip, time_window)`
key.  An absent set attribute of an item is represented by `∅`, which is
observationally identical for membership and `ADD`.  `ttlv` stands for the
value `int((utcnow + 24h).timestamp())` computed by the update call. -/

structure TrackingRecord where
  request_count : Nat
  abuse_score : Nat
  last_seen : String
  ttl : Nat
  abuse_score_range : String
  status_codes : Finset String
  methods : Finset String
  resources : Finset String
deriving DecidableEq

/-- One update call's inputs: the event's score, timestamp and fields, plus
the `now + 24h` TTL value computed at call time. -/
structure UpdArgs where
  score : Nat
  ts : String
  status : String
  method : String
  resource : String
  ttlv : Nat
deriving DecidableEq

/-- The first `update_item` (5-minute window, lines 131-153):
`SET request_count = if_not_exists(request_count, 0) + 1,
abuse_score = if_not_exists(abuse_score, 0) + score, last_seen, ttl,
abuse_score_range = get_abuse_score_range(score); ADD status_codes {status}`. -/
def update_five_min (u : UpdArgs) (old : Option TrackingRecord) : TrackingRecord :=
  { request_count := (match old with | some r => r.request_count | none => 0) + 1
    abuse_score := (match old with | some r => r.abuse_score | none => 0) + u.score
    last_seen := u.ts
    ttl := u.ttlv
    abuse_score_range := get_abuse_score_range u.score
    status_codes := insert u.status (match old with | some r => r.status_codes | none => ∅)
    methods := (match old with | some r => r.methods | none => ∅)
    resources := (match old with | some r => r.resources | none => ∅) }

/-- The second `update_item` (60-minute window, lines 157-180): same `SET`
clause, but `ADD methods {method}, resources {resource}` instead of
`status_codes`. -/
def update_hour (u : UpdArgs) (old : Option TrackingRecord) : TrackingRecord :=
  { request_count := (match old with | some r => r.request_count | none => 0) + 1
    abuse_score := (match old with | some r => r.abuse_score | none => 0) + u.score
    last_seen := u.ts
    ttl := u.ttlv
    abuse_score_range := get_abuse_score_range u.score
    status_codes := (match old with | some r => r.status_codes | none => ∅)
    methods := insert u.method (match old with | some r => r.methods | none => ∅)
    resources := insert u.resource (match old with | some r => r.resources | none => ∅) }

/-- The two records one identity owns for the event's pair of windows. -/
structure WindowState where
  short : Option TrackingRecord := none
  long : Option TrackingRecord := none
deriving DecidableEq

/-- `update_tracking_data` as a whole: both windows are written with the same
score and event. -/
def update_tracking_data (u : UpdArgs) (w : WindowState) : WindowState :=
  { short := some (update_five_min u w.short)
    long := some (update_hour u w.long) }

/-- A sequence of update calls applied to one identity's pair of records. -/
def apply_updates (l : List UpdArgs) (w : WindowState) : WindowState :=
  l.foldl (fun st u => update_tracking_data u st) w

/- ### Threshold evaluator (`realtime_abuse_detector.py`,
`check_abuse_thresholds`, lines 187-228)

The two `get_item` reads are passed in as the records found (or not) under
the current 5-minute and 60-minute window keys; the two thresholds are the
`ABUSE_THRESHOLD_5MIN` / `ABUSE_THRESHOLD_HOUR` configuration inputs. -/

def check_abuse_thresholds
    (short_rec long_rec : Option TrackingRecord) (t5 th : Nat) : Bool :=
  let hour_check :=
    match long_rec with
    | some item => decide (item.request_count > th) || decide (item.abuse_score > 100)
    | none => false
  match short_rec with
  | some item =>
    if decide (item.request_count > t5) || decide (item.abuse_score > 50) then true
    else hour_check
  | none => hour_check

/- ### Reputation cache (`ip_reputation_checker.py`)

`perform_reputation_lookup` builds a base dict and merges every checker's
result into it with Python `dict.update`, which overwrites present keys.
`CheckerResult` has an `Option` per key so that an absent key leaves the
base value in place, exactly like `dict.update`. -/

structure ReputationEntry where
  is_malicious : Bool
  threat_types : List String
  confidence_score : Nat
  sources : List String
  last_seen : Option String
deriving DecidableEq

structure CheckerResult where
  is_malicious : Option Bool := none
  threat_types : Option (List String) := none
  confidence_score : Option Nat := none
  sources : Option (List String) := none
deriving DecidableEq

/-- Python `dict.update`: every key present in `r` overwrites the entry. -/
def dict_update (d : ReputationEntry) (r : CheckerResult) : ReputationEntry :=
  { is_malicious := r.is_malicious.getD d.is_malicious
    threat_types := r.threat_types.getD d.threat_types
    confidence_score := r.confidence_score.getD d.confidence_score
    sources := r.sources.getD d.sources
    last_seen := d.last_seen }

/-- `check_ip_patterns` (lines 147-179): private/reserved ranges and the
1.1.1.1 literal; the loop breaks on the first matching pattern and a
`ValueError` inside a pattern just moves on to the next one. -/
def check_ip_patterns (ip_address : String) : CheckerResult :=
  match split_dots ip_address.data with
  | [o0, o1, o2, o3] =>
    let s0 := String.mk o0
    let s1 := String.mk o1
    let s2 := String.mk o2
    let s3 := String.mk o3
    let hit :=
      s0 == "10" ||
      (s0 == "172" &&
        (match py_int_of_string s1 with
         | some n => decide (16 ≤ n) && decide (n ≤ 31)
         | none => false)) ||
      (s0 == "192" && s1 == "168") ||
      (s0 == "1" && s1 == "1" && s2 == "1" && s3 == "1")
    if hit then
      { sources := some ["pattern_check"]
        threat_types := some ["suspicious_range"]
        confidence_score := some (max 0 30) }
    else { sources := some ["pattern_check"] }
  | _ => { sources := some ["pattern_check"] }

/-- `check_known_bad_ranges` (lines 181-207). -/
def check_known_bad_ranges (ip_address : String) : CheckerResult :=
  if ip_address == "0.0.0.0" || ip_address == "127.0.0.1" ||
      ip_address == "255.255.255.255" then
    { sources := some ["bad_ranges_check"]
      is_malicious := some true
      threat_types := some ["invalid_ip"]
      confidence_score := some 90 }
  else { sources := some ["bad_ranges_check"] }

/-- `check_geolocation_risks` (lines 209-232): flat baseline confidence 10. -/
def check_geolocation_risks (ip_address : String) : CheckerResult :=
  { sources := some ["geo_check"], confidence_score := some 10 }

/-- `perform_reputation_lookup` (lines 100-145): base entry, then the three
`reputation_data.update(...)` calls in source order. -/
def perform_reputation_lookup (ip_address : String) : ReputationEntry :=
  let base : ReputationEntry :=
    { is_malicious := false, threat_types := [], confidence_score := 0
      sources := [], last_seen := none }
  dict_update
    (dict_update
      (dict_update base (check_ip_patterns ip_address))
      (check_known_bad_ranges ip_address))
    (check_geolocation_risks ip_address)

/- ### Response orchestrator (`abuse_response_handler.py`) -/

structure RAction where
  type : String
  severity : Option String := none
  priority : Option String := none
  duration_minutes : Option Nat := none
deriving DecidableEq

def default_logging_action : RAction :=
  { type := "increase_logging_detail", duration_minutes := some 30 }

/-- `determine_response_actions(alarm_name, alarm_reason)` (lines 71-113):
classification of the alarm name by substring tokens (the `except` branch
that yields a lone `alert_admins` action is unreachable for the pure string
checks in the body). -/
def determine_response_actions (alarm_name : String) : List RAction :=
  let n := py_lower alarm_name
  let base :=
    if str_contains n "high-volume" then
      [{ type := "identify_high_volume_ips", severity := some "medium" },
       { type := "temporary_rate_limit", duration_minutes := some 30 },
       { type := "alert_admins", priority := some "high" }]
    else if str_contains n "url-creation" then
      [{ type := "identify_spam_creators", severity := some "high" },
       { type := "block_suspicious_ips", duration_minutes := some 60 },
       { type := "alert_admins", priority := some "critical" }]
    else if str_contains n "custom-abuse" then
      if str_contains n "scanner" then
        [{ type := "identify_scanners", severity := some "high" },
         { type := "block_scanner_ips", duration_minutes := some 120 },
         { type := "alert_security_team", priority := some "high" }]
      else if str_contains n "suspicious_patterns" then
        [{ type := "analyze_suspicious_patterns", severity := some "medium" },
         { type := "temporary_monitoring_increase", duration_minutes := some 60 },
         { type := "alert_admins", priority := some "medium" }]
      else []
    else []
  base ++ [default_logging_action]

/-- Alarm names in which none of the three top-level category tokens occurs. -/
def unmatched_alarm (alarm_name : String) : Bool :=
  let n := py_lower alarm_name
  !str_contains n "high-volume" && !str_contains n "url-creation" &&
    !str_contains n "custom-abuse"

/-- The run's environment: whether `WAF_WEB_ACL_NAME` is configured, and the
store-backed result lists the three `identify_*` calls return in this run.
The elements stand for the per-IP dicts those queries produce. -/
structure ExecEnv where
  waf_configured : Bool
  high_volume_result : List String
  spam_creator_result : List String
  scanner_result : List String
deriving DecidableEq

/-- The `results` dict threaded through `execute_response_actions`; the
three identify keys are added dynamically, hence `Option`. -/
structure ExecResults where
  successful_actions : List String := []
  failed_actions : List String := []
  ips_blocked : List String := []
  notifications_sent : Nat := 0
  high_volume_ips : Option (List String) := none
  spam_creator_ips : Option (List String) := none
  scanner_ips : Option (List String) := none
deriving DecidableEq

/-- `block_ips_in_waf` (lines 299-330): returns `[]` when the WAF is not
configured, else the target list capped at 5. -/
def block_ips_in_waf (waf_configured : Bool) (ips : List String) : List String :=
  if !waf_configured then [] else ips.take 5

/-- `apply_temporary_rate_limit` (lines 332-352): `False` when the WAF is
not configured, else the simulated success `True`. -/
def apply_temporary_rate_limit (waf_configured : Bool) : Bool :=
  if !waf_configured then false else true

/-- One iteration of the action loop in `execute_response_actions`
(lines 124-184). -/
def execute_action (env : ExecEnv) (results : ExecResults) (action : RAction) :
    ExecResults :=
  let t := action.type
  if t == "identify_high_volume_ips" then
    { results with high_volume_ips := some env.high_volume_result
                   successful_actions := results.successful_actions ++ [t] }
  else if t == "identify_spam_creators" then
    { results with spam_creator_ips := some env.spam_creator_result
                   successful_actions := results.successful_actions ++ [t] }
  else if t == "identify_scanners" then
    { results with scanner_ips := some env.scanner_result
                   successful_actions := results.successful_actions ++ [t] }
  else if t == "block_suspicious_ips" || t == "block_scanner_ips" then
    let ips_to_block :=
      (results.spam_creator_ips.getD []).take 5 ++
        (results.scanner_ips.getD []).take 5
    if !ips_to_block.isEmpty && env.waf_configured then
      { results with
          ips_blocked :=
            results.ips_blocked ++ block_ips_in_waf env.waf_configured ips_to_block
          successful_actions := results.successful_actions ++ [t] }
    else results
  else if t == "temporary_rate_limit" then
    if env.waf_configured then
      if apply_temporary_rate_limit env.waf_configured then
        { results with successful_actions := results.successful_actions ++ [t] }
      else { results with failed_actions := results.failed_actions ++ [t] }
    else results
  else if t == "alert_admins" || t == "alert_security_team" then
    { results with successful_actions := results.successful_actions ++ [t] }
  else if t == "increase_logging_detail" || t == "temporary_monitoring_increase" then
    { results with successful_actions := results.successful_actions ++ [t] }
  else
    { results with failed_actions := results.failed_actions ++ [t] }

/-- `execute_response_actions(actions)` (lines 115-186). -/
def execute_response_actions (env : ExecEnv) (actions : List RAction) : ExecResults :=
  actions.foldl (execute_action env) {}

/- ## Theorems -/

/-- Claim C1: the stored `score_range` is NOT the bucket of the accumulated
`abuse_score_sum`: 25 updates of the same 5-minute record, each adding
score 11, leave `abuse_score = 275` but `abuse_score_range = "medium"`,
because `update_tracking_data` writes `get_abuse_score_range(score)` for the
single event's score.  The bucket of the accumulated sum would be
`"critical"`. -/
theorem c1_score_range_divergence :
    ((apply_updates (List.replicate 25 ⟨11, "t", "404", "GET", "/admin/config", 0⟩)
        ⟨none, none⟩).short.map fun r => r.abuse_score) = some 275 ∧
    ((apply_updates (List.replicate 25 ⟨11, "t", "404", "GET", "/admin/config", 0⟩)
        ⟨none, none⟩).short.map fun r => r.abuse_score_range) = some "medium" ∧
    get_abuse_score_range 275 = "critical" ∧ "medium" ≠ "critical" := by
  refine ⟨by decide, by decide, by decide, by decide⟩

/-- Claim C2: the three checker results are merged with `dict.update`, which
overwrites: for each known-bad literal the final entry has `is_malicious =
true` but `confidence_score = 10` (the geolocation checker's baseline, the
last writer) instead of the maximum 90, and `sources = ["geo_check"]`
instead of the union of the three checker names. -/
theorem c2_merge_overwrite_divergence :
    perform_reputation_lookup "0.0.0.0" =
      { is_malicious := true, threat_types := ["invalid_ip"],
        confidence_score := 10, sources := ["geo_check"], last_seen := none } ∧
    perform_reputation_lookup "127.0.0.1" =
      { is_malicious := true, threat_types := ["invalid_ip"],
        confidence_score := 10, sources := ["geo_check"], last_seen := none } ∧
    perform_reputation_lookup "255.255.255.255" =
      { is_malicious := true, threat_types := ["invalid_ip"],
        confidence_score := 10, sources := ["geo_check"], last_seen := none } := by
  refine ⟨by decide, by decide, by decide⟩

/-- Claim C3 (counterexample): one update from an absent pair of records does
not union the event's method or resource into the 5-minute record, nor the
event's status into the 60-minute record — contrary to the claim that all
three set fields receive one element in both granularities. -/
theorem c3_counterexample :
    ((update_tracking_data ⟨11, "t", "404", "GET", "/admin/config", 0⟩
        ⟨none, none⟩).short.map fun r =>
          decide ("GET" ∈ r.methods ∧ "/admin/config" ∈ r.resources)) = some false ∧
    ((update_tracking_data ⟨11, "t", "404", "GET", "/admin/config", 0⟩
        ⟨none, none⟩).long.map fun r => decide ("404" ∈ r.status_codes)) = some false := by
  refine ⟨by decide, by decide⟩

/-- Claim C4 (counterexample): a second update overwrites `ttl`.  With a
first update computing `now + 24h = 1000` and a second computing `2000`, the
stored `ttl` is `2000`, not the first write's `1000`. -/
theorem c4_counterexample :
    ((apply_updates [⟨1, "t1", "404", "GET", "/a", 1000⟩,
        ⟨1, "t2", "404", "GET", "/a", 2000⟩] ⟨none, none⟩).short.map
          fun r => r.ttl) = some 2000 ∧
    ((apply_updates [⟨1, "t1", "404", "GET", "/a", 1000⟩,
        ⟨1, "t2", "404", "GET", "/a", 2000⟩] ⟨none, none⟩).short.map
          fun r => r.ttl) ≠ some 1000 := by
  refine ⟨by decide, by decide⟩

/-- Claim C5 (counterexample): with the short-window record absent,
`check_abuse_thresholds` does not return NO-ALERT; it falls through to the
long-window record and alerts on it (here `request_count = 200 > 100`). -/
theorem c5_counterexample :
    check_abuse_thresholds none
      (some { request_count := 200, abuse_score := 0, last_seen := "", ttl := 0,
              abuse_score_range := "low", status_codes := ∅, methods := ∅,
              resources := ∅ }) 10 100 = true := by
  decide

/-- Claim C6 (counterexample): the end-to-end example event does not score
11 — the spec's sum omits the `+2` for a status beginning with `"4"`. -/
theorem c6_counterexample :
    calculate_abuse_score "203.0.113.5" "404" "" "GET" "/admin/config" ≠ 11 := by
  decide

/-- Claim C6 (amended): the event `{status="404", user_agent="", method="GET",
resource="/admin/config"}` scores exactly 13: 2 (status begins with "4") +
3 (404) + 3 (empty user agent) + 5 (/admin resource). -/
theorem c6_amended :
    calculate_abuse_score "203.0.113.5" "404" "" "GET" "/admin/config" = 13 := by
  decide

/-- Claim C3 (amended): each update call writes both granularities with the
same score, but distributes the set fields: the 5-minute record unions only
the event's status into `status_codes` (its `methods`/`resources` are
untouched), while the 60-minute record unions only the method and resource
(its `status_codes` is untouched). -/
theorem c3_amended (w : WindowState) (u : UpdArgs) :
    ∃ rs rl, (update_tracking_data u w).short = some rs ∧
      (update_tracking_data u w).long = some rl ∧
      rs.status_codes = insert u.status ((w.short.map fun r => r.status_codes).getD ∅) ∧
      rs.methods = (w.short.map fun r => r.methods).getD ∅ ∧
      rs.resources = (w.short.map fun r => r.resources).getD ∅ ∧
      rl.methods = insert u.method ((w.long.map fun r => r.methods).getD ∅) ∧
      rl.resources = insert u.resource ((w.long.map fun r => r.resources).getD ∅) ∧
      rl.status_codes = (w.long.map fun r => r.status_codes).getD ∅ ∧
      rs.abuse_score = ((w.short.map fun r => r.abuse_score).getD 0) + u.score ∧
      rl.abuse_score = ((w.long.map fun r => r.abuse_score).getD 0) + u.score := by
  refine ⟨update_five_min u w.short, update_hour u w.long, rfl, rfl,
    ?_, ?_, ?_, ?_, ?_, ?_, ?_, ?_⟩ <;>
    cases hs : w.short <;> cases hl : w.long <;>
      simp [update_five_min, update_hour]

/-- Claim C4 (amended): `ttl` is overwritten on every update with that
update's `now + 24h` value — the record expires 24 hours after its most
recent update, not 24 hours after its first write. -/
theorem c4_amended (w : WindowState) (u : UpdArgs) :
    ((update_tracking_data u w).short.map fun r => r.ttl) = some u.ttlv ∧
    ((update_tracking_data u w).long.map fun r => r.ttl) = some u.ttlv := by
  constructor <;> simp [update_tracking_data, update_five_min, update_hour]

/-- Claim C5 (amended): the evaluator alerts iff the short-window record
exists and exceeds the short thresholds, or the long-window record exists
and exceeds the long thresholds; an absent short-window record does not
force NO-ALERT — the long-window check still runs. -/
theorem c5_amended (s l : Option TrackingRecord) (t5 th : Nat) :
    check_abuse_thresholds s l t5 th = true ↔
      (∃ r, s = some r ∧ (t5 < r.request_count ∨ 50 < r.abuse_score)) ∨
      (∃ r, l = some r ∧ (th < r.request_count ∨ 100 < r.abuse_score)) := by
  cases s <;> cases l <;> simp [check_abuse_thresholds]

/-- Claim C7 (counterexample): an alarm name matching no category token
yields a plan with no `alert_admins` action at all — only the default
`increase_logging_detail` action. -/
theorem c7_counterexample :
    unmatched_alarm "routine-check" = true ∧
    ((determine_response_actions "routine-check").any
      fun a => a.type == "alert_admins") = false := by
  refine ⟨by decide, by decide⟩

/-- Claim C7 (amended): every plan ends with the default
`increase_logging_detail` action, and an alarm name matching none of the
category tokens yields exactly that default action alone (the
`alert_admins` fallback exists only in the planner's error path, which the
pure string matching never reaches). -/
theorem c7_amended (alarm_name : String) :
    (determine_response_actions alarm_name).getLast? = some default_logging_action ∧
    (unmatched_alarm alarm_name = true →
      determine_response_actions alarm_name = [default_logging_action]) := by
  constructor
  · simp only [determine_response_actions]
    exact List.getLast?_concat _
  · intro h
    simp only [unmatched_alarm, Bool.and_eq_true, Bool.not_eq_true'] at h
    obtain ⟨⟨h1, h2⟩, h3⟩ := h
    simp [determine_response_actions, h1, h2, h3]

/-- Claim C7 witness: the amended theorem applied to the unmatched alarm
name `"routine-check"`. -/
theorem c7_witness :
    unmatched_alarm "routine-check" = true ∧
    determine_response_actions "routine-check" = [default_logging_action] :=
  ⟨by decide, (c7_amended "routine-check").2 (by decide)⟩

/-- Claim C9 (counterexample): a missing `status` field is not treated as the
empty string: the handler reaches `status.startswith` with `None`, raises,
and returns an error result instead of the score the empty-string default
would give. -/
theorem c9_counterexample :
    handler_score_outcome
      { source_ip := some "198.51.100.7", status := none, user_agent := some "",
        method := some "GET", resource := some "/x" } = .serverError ∧
    handler_score_outcome
      { source_ip := some "198.51.100.7", status := none, user_agent := some "",
        method := some "GET", resource := some "/x" } ≠
      .ok (calculate_abuse_score "198.51.100.7" "" "" "GET" "/x") := by
  refine ⟨by decide, by decide⟩

/-- Claim C9 (amended): the scoring function is the clamp to at most 100 of
the additive §4.1 rule sum, hence always in `[0,100]`, and is a pure
function of the event fields; missing `user_agent`, `method` and `resource`
are defaulted to the empty string, but a missing `status` is not defaulted
— the handler fails instead of scoring. -/
theorem c9_amended (source_ip status user_agent method resource : String)
    (ua_opt m_opt r_opt : Option String) :
    calculate_abuse_score source_ip status user_agent method resource =
      min (spec_scoring_rule_sum status user_agent method resource) 100 ∧
    calculate_abuse_score source_ip status user_agent method resource ≤ 100 ∧
    (source_ip.data.isEmpty = false →
      handler_score_outcome
        { source_ip := some source_ip, status := some status,
          user_agent := ua_opt, method := m_opt, resource := r_opt } =
        .ok (calculate_abuse_score source_ip status (ua_opt.getD "")
          (m_opt.getD "") (r_opt.getD ""))) := by
  have step : ∀ (c : Prop) [Decidable c] (s k : Nat),
      (if c then s + k else s) = s + (if c then k else 0) := by
    intro c _ s k
    split <;> simp
  have hmain : calculate_abuse_score source_ip status user_agent method resource =
      min (spec_scoring_rule_sum status user_agent method resource) 100 := by
    simp only [calculate_abuse_score, spec_scoring_rule_sum, step, Nat.zero_add]
  refine ⟨hmain, ?_, ?_⟩
  · rw [hmain]
    exact Nat.min_le_right _ 100
  · intro h
    simp [handler_score_outcome, h]

/-- Claim C9 witness: the amended theorem applied to the spec's example
event, with every hypothesis discharged at that input. -/
theorem c9_witness :
    ("203.0.113.5" : String).data.isEmpty = false ∧
    calculate_abuse_score "203.0.113.5" "404" "x" "GET" "/a" =
      min (spec_scoring_rule_sum "404" "x" "GET" "/a") 100 ∧
    calculate_abuse_score "203.0.113.5" "404" "x" "GET" "/a" ≤ 100 ∧
    handler_score_outcome
      { source_ip := some "203.0.113.5", status := some "404",
        user_agent := some "x", method := some "GET", resource := some "/a" } =
      .ok (calculate_abuse_score "203.0.113.5" "404" "x" "GET" "/a") :=
  ⟨by decide,
   (c9_amended "203.0.113.5" "404" "x" "GET" "/a" (some "x") (some "GET") (some "/a")).1,
   (c9_amended "203.0.113.5" "404" "x" "GET" "/a" (some "x") (some "GET") (some "/a")).2.1,
   (c9_amended "203.0.113.5" "404" "x" "GET" "/a" (some "x") (some "GET") (some "/a")).2.2
     (by decide)⟩

/-- Permutation invariance of `List.toFinset`, used for the set-union fields
of the aggregation store. -/
theorem perm_toFinset {α : Type} [DecidableEq α] {l l' : List α} (h : l.Perm l') :
    l.toFinset = l'.toFinset := by
  ext a
  simp only [List.mem_toFinset]
  exact h.mem_iff

/-- Closed form of the 5-minute record after a sequence of updates starting
from a present record. -/
theorem apply_updates_short_fields :
    ∀ (l : List UpdArgs) (w : WindowState) (r : TrackingRecord), w.short = some r →
    ∃ rf, (apply_updates l w).short = some rf ∧
      rf.request_count = r.request_count + l.length ∧
      rf.abuse_score = r.abuse_score + (l.map fun u => u.score).sum ∧
      rf.status_codes = r.status_codes ∪ (l.map fun u => u.status).toFinset
  | [], w, r, h =>
    ⟨r, by simpa [apply_updates] using h, by simp, by simp, by simp⟩
  | u :: t, w, r, h => by
    obtain ⟨rf, hrf, hcount, hsum, hset⟩ :=
      apply_updates_short_fields t (update_tracking_data u w)
        (update_five_min u w.short) rfl
    rw [h] at hcount hsum hset
    simp only [update_five_min] at hcount hsum hset
    refine ⟨rf, by simpa [apply_updates] using hrf, ?_, ?_, ?_⟩
    · simp only [List.length_cons]
      omega
    · simp only [List.map_cons, List.sum_cons]
      omega
    · rw [hset, List.map_cons, List.toFinset_cons, Finset.union_insert,
        Finset.insert_union]

/-- Closed form of the 60-minute record after a sequence of updates starting
from a present record. -/
theorem apply_updates_long_fields :
    ∀ (l : List UpdArgs) (w : WindowState) (r : TrackingRecord), w.long = some r →
    ∃ rf, (apply_updates l w).long = some rf ∧
      rf.request_count = r.request_count + l.length ∧
      rf.abuse_score = r.abuse_score + (l.map fun u => u.score).sum ∧
      rf.methods = r.methods ∪ (l.map fun u => u.method).toFinset ∧
      rf.resources = r.resources ∪ (l.map fun u => u.resource).toFinset
  | [], w, r, h =>
    ⟨r, by simpa [apply_updates] using h, by simp, by simp, by simp, by simp⟩
  | u :: t, w, r, h => by
    obtain ⟨rf, hrf, hcount, hsum, hmeth, hres⟩ :=
      apply_updates_long_fields t (update_tracking_data u w)
        (update_hour u w.long) rfl
    rw [h] at hcount hsum hmeth hres
    simp only [update_hour] at hcount hsum hmeth hres
    refine ⟨rf, by simpa [apply_updates] using hrf, ?_, ?_, ?_, ?_⟩
    · simp only [List.length_cons]
      omega
    · simp only [List.map_cons, List.sum_cons]
      omega
    · rw [hmeth, List.map_cons, List.toFinset_cons, Finset.union_insert,
        Finset.insert_union]
    · rw [hres, List.map_cons, List.toFinset_cons, Finset.union_insert,
        Finset.insert_union]

/-- Closed form of both records after a nonempty sequence of updates starting
from an absent pair of records. -/
theorem apply_updates_from_empty (l : List UpdArgs) (hne : l ≠ []) :
    ∃ rs rl, (apply_updates l ⟨none, none⟩).short = some rs ∧
      (apply_updates l ⟨none, none⟩).long = some rl ∧
      rs.request_count = l.length ∧
      rs.abuse_score = (l.map fun u => u.score).sum ∧
      rs.status_codes = (l.map fun u => u.status).toFinset ∧
      rl.request_count = l.length ∧
      rl.abuse_score = (l.map fun u => u.score).sum ∧
      rl.methods = (l.map fun u => u.method).toFinset ∧
      rl.resources = (l.map fun u => u.resource).toFinset := by
  match l, hne with
  | u :: t, _ =>
    obtain ⟨rs, hrs, hsc, hss, hsset⟩ :=
      apply_updates_short_fields t (update_tracking_data u ⟨none, none⟩)
        (update_five_min u none) rfl
    obtain ⟨rl, hrl, hlc, hls, hlm, hlr⟩ :=
      apply_updates_long_fields t (update_tracking_data u ⟨none, none⟩)
        (update_hour u none) rfl
    simp only [update_five_min, update_hour] at hsc hss hsset hlc hls hlm hlr
    refine ⟨rs, rl, by simpa [apply_updates] using hrs,
      by simpa [apply_updates] using hrl, ?_, ?_, ?_, ?_, ?_, ?_, ?_⟩
    · simp only [List.length_cons]
      omega
    · simpa using hss
    · rw [hsset, List.map_cons, List.toFinset_cons, Finset.insert_union,
        Finset.empty_union]
    · simp only [List.length_cons]
      omega
    · simpa using hls
    · rw [hlm, List.map_cons, List.toFinset_cons, Finset.insert_union,
        Finset.empty_union]
    · rw [hlr, List.map_cons, List.toFinset_cons, Finset.insert_union,
        Finset.empty_union]

/-- Claim C10: starting from absent records, N update calls leave
`request_count = N` and `abuse_score` equal to the sum of the N scores, in
both granularities; any permutation of the same calls (any interleaving of
the atomic store updates) produces the same counters and the same set
fields; and re-delivering the same event twice leaves every set field as a
single delivery does (set union is idempotent), so retries only affect the
counters, never the set fields. -/
theorem c10_update_algebra (l lp : List UpdArgs) (hp : l.Perm lp) (hne : l ≠ []) :
    (((apply_updates l ⟨none, none⟩).short.map fun r => r.request_count) =
        some l.length ∧
     ((apply_updates l ⟨none, none⟩).short.map fun r => r.abuse_score) =
        some (l.map fun u => u.score).sum ∧
     ((apply_updates l ⟨none, none⟩).long.map fun r => r.request_count) =
        some l.length ∧
     ((apply_updates l ⟨none, none⟩).long.map fun r => r.abuse_score) =
        some (l.map fun u => u.score).sum) ∧
    (((apply_updates lp ⟨none, none⟩).short.map fun r => r.request_count) =
        ((apply_updates l ⟨none, none⟩).short.map fun r => r.request_count) ∧
     ((apply_updates lp ⟨none, none⟩).short.map fun r => r.abuse_score) =
        ((apply_updates l ⟨none, none⟩).short.map fun r => r.abuse_score) ∧
     ((apply_updates lp ⟨none, none⟩).short.map fun r => r.status_codes) =
        ((apply_updates l ⟨none, none⟩).short.map fun r => r.status_codes) ∧
     ((apply_updates lp ⟨none, none⟩).long.map fun r => r.request_count) =
        ((apply_updates l ⟨none, none⟩).long.map fun r => r.request_count) ∧
     ((apply_updates lp ⟨none, none⟩).long.map fun r => r.abuse_score) =
        ((apply_updates l ⟨none, none⟩).long.map fun r => r.abuse_score) ∧
     ((apply_updates lp ⟨none, none⟩).long.map fun r => r.methods) =
        ((apply_updates l ⟨none, none⟩).long.map fun r => r.methods) ∧
     ((apply_updates lp ⟨none, none⟩).long.map fun r => r.resources) =
        ((apply_updates l ⟨none, none⟩).long.map fun r => r.resources)) ∧
    (∀ (u : UpdArgs) (m : List UpdArgs),
      ((apply_updates (u :: u :: m) ⟨none, none⟩).short.map fun r => r.status_codes) =
        ((apply_updates (u :: m) ⟨none, none⟩).short.map fun r => r.status_codes) ∧
      ((apply_updates (u :: u :: m) ⟨none, none⟩).long.map fun r => r.methods) =
        ((apply_updates (u :: m) ⟨none, none⟩).long.map fun r => r.methods) ∧
      ((apply_updates (u :: u :: m) ⟨none, none⟩).long.map fun r => r.resources) =
        ((apply_updates (u :: m) ⟨none, none⟩).long.map fun r => r.resources)) := by
  have hpne : lp ≠ [] := by
    intro he
    apply hne
    have := hp.length_eq
    rw [he] at this
    exact List.length_eq_zero.mp this
  obtain ⟨rs, rl, hrs, hrl, hsc, hss, hsset, hlc, hls, hlm, hlr⟩ :=
    apply_updates_from_empty l hne
  obtain ⟨ps, pl, hps, hpl, hpc, hpss, hpset, hplc, hpls, hplm, hplr⟩ :=
    apply_updates_from_empty lp hpne
  refine ⟨⟨?_, ?_, ?_, ?_⟩, ⟨?_, ?_, ?_, ?_, ?_, ?_, ?_⟩, ?_⟩
  · rw [hrs]; simp [hsc]
  · rw [hrs]; simp [hss]
  · rw [hrl]; simp [hlc]
  · rw [hrl]; simp [hls]
  · rw [hrs, hps]; simp [hsc, hpc, hp.length_eq]
  · rw [hrs, hps]; simp [hss, hpss, (hp.map fun u => u.score).sum_eq]
  · rw [hrs, hps]; simp [hsset, hpset, perm_toFinset (hp.map fun u => u.status)]
  · rw [hrl, hpl]; simp [hlc, hplc, hp.length_eq]
  · rw [hrl, hpl]; simp [hls, hpls, (hp.map fun u => u.score).sum_eq]
  · rw [hrl, hpl]; simp [hlm, hplm, perm_toFinset (hp.map fun u => u.method)]
  · rw [hrl, hpl]; simp [hlr, hplr, perm_toFinset (hp.map fun u => u.resource)]
  · intro u m
    obtain ⟨as, al, has, hal, _, _, haset, _, _, halm, halr⟩ :=
      apply_updates_from_empty (u :: u :: m) (by simp)
    obtain ⟨bs, bl, hbs, hbl, _, _, hbset, _, _, hblm, hblr⟩ :=
      apply_updates_from_empty (u :: m) (by simp)
    refine ⟨?_, ?_, ?_⟩
    · rw [has, hbs]
      simp [haset, hbset, List.toFinset_cons, Finset.insert_idem]
    · rw [hal, hbl]
      simp [halm, hblm, List.toFinset_cons, Finset.insert_idem]
    · rw [hal, hbl]
      simp [halr, hblr, List.toFinset_cons, Finset.insert_idem]

/-- Claim C10 witness: the theorem applied to a concrete two-element update
sequence and its transposition, with both hypotheses discharged there. -/
theorem c10_witness :
    ([⟨2, "t1", "404", "GET", "/a", 0⟩, ⟨3, "t2", "200", "POST", "/b", 0⟩] :
        List UpdArgs).Perm
      [⟨3, "t2", "200", "POST", "/b", 0⟩, ⟨2, "t1", "404", "GET", "/a", 0⟩] ∧
    ([⟨2, "t1", "404", "GET", "/a", 0⟩, ⟨3, "t2", "200", "POST", "/b", 0⟩] :
        List UpdArgs) ≠ [] ∧
    ((apply_updates
        [⟨2, "t1", "404", "GET", "/a", 0⟩, ⟨3, "t2", "200", "POST", "/b", 0⟩]
        ⟨none, none⟩).short.map fun r => r.request_count) = some 2 := by
  have hp : ([⟨2, "t1", "404", "GET", "/a", 0⟩, ⟨3, "t2", "200", "POST", "/b", 0⟩] :
      List UpdArgs).Perm
      [⟨3, "t2", "200", "POST", "/b", 0⟩, ⟨2, "t1", "404", "GET", "/a", 0⟩] :=
    List.Perm.swap _ _ _
  exact ⟨hp, by decide,
    (c10_update_algebra _ _ hp (by decide)).1.1⟩

/-- With the WAF unconfigured, no single action step changes `ips_blocked`. -/
theorem execute_action_ips_blocked_of_no_waf (env : ExecEnv)
    (hw : env.waf_configured = false) (res : ExecResults) (a : RAction) :
    (execute_action env res a).ips_blocked = res.ips_blocked := by
  simp only [execute_action]
  split_ifs <;> simp_all

/-- With the WAF unconfigured, no fold over actions changes `ips_blocked`. -/
theorem execute_fold_ips_blocked_of_no_waf (env : ExecEnv)
    (hw : env.waf_configured = false) :
    ∀ (acts : List RAction) (res : ExecResults),
      (acts.foldl (execute_action env) res).ips_blocked = res.ips_blocked
  | [], res => rfl
  | a :: t, res => by
    rw [List.foldl_cons, execute_fold_ips_blocked_of_no_waf env hw t _,
      execute_action_ips_blocked_of_no_waf env hw]

/-- Claim C8: (i) a `block_*` step's target list is `spam_creator_ips[:5] ++
scanner_ips[:5]` from the results recorded by the preceding identification
steps, and the blocked list is that target list capped at 5 overall; when
the target list is empty or the WAF is unconfigured the step leaves the
whole results record unchanged — in particular the action lands in neither
`successful_actions` nor `failed_actions` and `ips_blocked` is untouched;
(ii) the identification steps record exactly their store-query results;
(iii) every planned action list that contains a `block_*` action contains no
`identify_high_volume_ips` action, so the two result sets a block step reads
are exactly those of all preceding identification actions; (iv) with the
WAF unconfigured a whole run blocks no IPs. -/
theorem c8_block_semantics (env : ExecEnv) :
    (∀ (res : ExecResults) (a : RAction),
      (a.type = "block_suspicious_ips" ∨ a.type = "block_scanner_ips") →
      (((res.spam_creator_ips.getD []).take 5 ++ (res.scanner_ips.getD []).take 5) = [] ∨
          env.waf_configured = false →
        execute_action env res a = res) ∧
      (((res.spam_creator_ips.getD []).take 5 ++ (res.scanner_ips.getD []).take 5) ≠ [] →
        env.waf_configured = true →
        execute_action env res a =
          { res with
              ips_blocked := res.ips_blocked ++
                ((res.spam_creator_ips.getD []).take 5 ++
                  (res.scanner_ips.getD []).take 5).take 5
              successful_actions := res.successful_actions ++ [a.type] })) ∧
    (∀ (res : ExecResults) (a : RAction), a.type = "identify_spam_creators" →
      (execute_action env res a).spam_creator_ips = some env.spam_creator_result) ∧
    (∀ (res : ExecResults) (a : RAction), a.type = "identify_scanners" →
      (execute_action env res a).scanner_ips = some env.scanner_result) ∧
    (∀ (alarm_name : String),
      ((determine_response_actions alarm_name).any fun b =>
        b.type == "block_suspicious_ips" || b.type == "block_scanner_ips") = true →
      ((determine_response_actions alarm_name).all fun a =>
        !(a.type == "identify_high_volume_ips")) = true) ∧
    (env.waf_configured = false → ∀ (acts : List RAction),
      (execute_response_actions env acts).ips_blocked = []) := by
  refine ⟨?_, ?_, ?_, ?_, ?_⟩
  · intro res a ha
    constructor
    · intro hskip
      rcases hskip with h | h <;> rcases ha with ha | ha <;>
        simp [execute_action, ha, h]
    · intro hne hwaf
      have hemp : ((res.spam_creator_ips.getD []).take 5 ++
          (res.scanner_ips.getD []).take 5).isEmpty = false := by
        cases he : ((res.spam_creator_ips.getD []).take 5 ++
            (res.scanner_ips.getD []).take 5) with
        | nil => exact absurd he hne
        | cons x t => rfl
      rcases ha with ha | ha <;>
        simp [execute_action, ha, hwaf, hemp, block_ips_in_waf]
  · intro res a ha
    simp [execute_action, ha]
  · intro res a ha
    simp [execute_action, ha]
  · intro alarm_name hblock
    by_cases h1 : str_contains (py_lower alarm_name) "high-volume"
    · simp [determine_response_actions, default_logging_action, h1] at hblock
    · by_cases h2 : str_contains (py_lower alarm_name) "url-creation"
      · simp [determine_response_actions, default_logging_action, h1, h2]
      · by_cases h3 : str_contains (py_lower alarm_name) "custom-abuse"
        · by_cases h4 : str_contains (py_lower alarm_name) "scanner"
          · simp [determine_response_actions, default_logging_action, h1, h2, h3, h4]
          · by_cases h5 : str_contains (py_lower alarm_name) "suspicious_patterns"
            · simp [determine_response_actions, default_logging_action, h1, h2, h3, h4, h5] at hblock
            · simp [determine_response_actions, default_logging_action, h1, h2, h3, h4, h5] at hblock
        · simp [determine_response_actions, default_logging_action, h1, h2, h3] at hblock
  · intro hw acts
    simp only [execute_response_actions]
    rw [execute_fold_ips_blocked_of_no_waf env hw]

/-- Claim C8 witness: the theorem applied to a concrete run environment
without a configured WAF, a concrete block action with an empty target list
(skipped: the results record is unchanged) and a concrete run that blocks
nothing. -/
theorem c8_witness :
    (({ type := "block_suspicious_ips", duration_minutes := some 60 } :
        RAction).type = "block_suspicious_ips" ∨
      ({ type := "block_suspicious_ips", duration_minutes := some 60 } :
        RAction).type = "block_scanner_ips") ∧
    ((({} : ExecResults).spam_creator_ips.getD []).take 5 ++
      (({} : ExecResults).scanner_ips.getD []).take 5) = [] ∧
    execute_action ⟨false, [], ["198.51.100.7"], []⟩ {}
      { type := "block_suspicious_ips", duration_minutes := some 60 } = {} ∧
    (⟨false, [], ["198.51.100.7"], []⟩ : ExecEnv).waf_configured = false ∧
    (execute_response_actions ⟨false, [], ["198.51.100.7"], []⟩
      (determine_response_actions "url-creation-alarm")).ips_blocked = [] :=
  ⟨Or.inl rfl, rfl,
    ((c8_block_semantics ⟨false, [], ["198.51.100.7"], []⟩).1 {}
      { type := "block_suspicious_ips", duration_minutes := some 60 }
      (Or.inl rfl)).1 (Or.inl rfl),
    rfl,
    (c8_block_semantics ⟨false, [], ["198.51.100.7"], []⟩).2.2.2.2 rfl
      (determine_response_actions "url-creation-alarm")⟩

end Squrl
